import Mathlib

set_option autoImplicit false

/-!
Verification development for the PyTweet request/response pipeline
(`pytweet/http.py`) and the payload merger (`pytweet/tweet.py`).

The Python code is shallowly embedded: JSON values become an inductive
type, Python exceptions become an error type threaded through `Except`,
network and clock effects (`session.request`, `time.sleep`) are recorded
in an explicit effect trace, and the server responses are inputs.
-/

/-- JSON values, as decoded by `response.json()`.  Python maps JSON
objects to `dict` (insertion ordered), arrays to `list`, `null` to
`None`. -/
inductive JVal where
  | null : JVal
  | bool (b : Bool) : JVal
  | num (n : Int) : JVal
  | str (s : String) : JVal
  | arr (xs : List JVal) : JVal
  | obj (fields : List (String × JVal)) : JVal

/-- Python exceptions that the embedded code can raise.

Modelled from the spec: the repository module `pytweet/errors.py` is not
under `src/`; per the specification error taxonomy (section 7) the library
exceptions `PytweetException`, `NotFoundError`, `BadRequests`,
`Unauthorized`, `Forbidden`, `NotFound`, `Conflict` are distinct typed
errors, unrelated to the built-in `KeyError` / `JSONDecodeError` caught by
the handlers in `check_200` / `check_error`.  `fuelExhausted` is a
modelling artifact marking exhaustion of the explicit bound put on a
source loop that has none; it is never produced when the bound exceeds
the number of iterations actually performed. -/
inductive PyExc where
  | jsonDecodeError : PyExc
  | keyError (k : String) : PyExc
  | indexError : PyExc
  | typeError (msg : String) : PyExc
  | attributeError (a : String) : PyExc
  | valueError (msg : String) : PyExc
  | syntaxError (msg : String) : PyExc
  | notFoundError : PyExc
  | badRequests : PyExc
  | unauthorized : PyExc
  | forbidden : PyExc
  | notFound : PyExc
  | conflict : PyExc
  | pytweetException (msg : String) : PyExc
  | pytweetExceptionDetail (detail : JVal) : PyExc
  | pytweetExceptionVal (res : JVal) : PyExc
  | fuelExhausted : PyExc

/-- Uppercase a character (ASCII), structurally evaluable. -/
def charUpper (c : Char) : Char :=
  if 97 ≤ c.toNat ∧ c.toNat ≤ 122 then Char.ofNat (c.toNat - 32) else c

/-- Python `s.upper()`, evaluable by kernel reduction. -/
def strUpper (s : String) : String := ⟨s.data.map charUpper⟩

/-- Value of a decimal digit character. -/
def charDigit (c : Char) : Option Nat :=
  if 48 ≤ c.toNat ∧ c.toNat ≤ 57 then some (c.toNat - 48) else none

/-- Accumulate decimal digits. -/
def digitsVal : List Char → Nat → Option Nat
  | [], acc => some acc
  | c :: cs, acc =>
    match charDigit c with
    | some d => digitsVal cs (acc * 10 + d)
    | none => none

/-- Python `int(s)` on a string: an optional sign followed by decimal
digits (surrounding whitespace and digit separators are not modelled;
no embedded call site uses them). -/
def pyIntOfString (s : String) : Option Int :=
  match s.data with
  | [] => none
  | c :: cs =>
    if c = Char.ofNat 45 then
      match cs with
      | [] => none
      | _ => (digitsVal cs 0).map (fun n => -(n : Int))
    else (digitsVal (c :: cs) 0).map (fun n => (n : Int))

/-- Python truthiness of a decoded JSON value (`bool(v)`). -/
def pyTruthy : JVal → Bool
  | .null => false
  | .bool b => b
  | .num n => n != 0
  | .str s => !s.data.isEmpty
  | .arr xs => !xs.isEmpty
  | .obj fs => !fs.isEmpty

/-- Truthiness of a value that may be Python `None` (absent). -/
def pyTruthyOpt : Option JVal → Bool
  | none => false
  | some v => pyTruthy v

/-- Python `v.keys()`: the keys of a dict; `AttributeError` on a
non-dict. -/
def pyKeys : JVal → Except PyExc (List String)
  | .obj fs => .ok (fs.map (fun kv => kv.1))
  | _ => .error (.attributeError "keys")

/-- Python `v.get(k)` (default `None`): `AttributeError` on a non-dict,
otherwise the first binding of `k` or `None`. -/
def dictGet : JVal → String → Except PyExc (Option JVal)
  | .obj fs, k => .ok ((fs.find? (fun kv => kv.1 == k)).map (fun kv => kv.2))
  | _, _ => .error (.attributeError "get")

/-- Python `v[k]` for a string key: `KeyError` when absent,
`TypeError` when `v` is not a dict. -/
def pySubscr : JVal → String → Except PyExc JVal
  | .obj fs, k =>
    match fs.find? (fun kv => kv.1 == k) with
    | some kv => .ok kv.2
    | none => .error (.keyError k)
  | _, _ => .error (.typeError "object is not subscriptable")

/-- Python `v[0]`: first element of a list (or first character of a
string), `IndexError` when empty, `TypeError` otherwise. -/
def pyIndex0 : JVal → Except PyExc JVal
  | .arr (x :: _) => .ok x
  | .arr [] => .error .indexError
  | .str s =>
    if s.data.isEmpty then .error .indexError
    else .ok (.str ⟨s.data.take 1⟩)
  | _ => .error (.typeError "object is not indexable")

/-- Python `v.startswith(pre)`: `AttributeError` unless `v` is a
string. -/
def pyStartsWith (v : JVal) (pre : String) : Except PyExc Bool :=
  match v with
  | .str s => .ok (pre.data.isPrefixOf s.data)
  | _ => .error (.attributeError "startswith")

/-- HTTP response, as seen through `requests.models.Response`:
`status_code`, the header dict, `text`, and the result of `.json()`
(`none` models a body on which `.json()` raises `JSONDecodeError`). -/
structure Response where
  status_code : Nat
  headers : List (String × String)
  body : Option JVal
  text : String

/-- Python `response.json()`. -/
def Response.json (r : Response) : Except PyExc JVal :=
  match r.body with
  | none => .error .jsonDecodeError
  | some v => .ok v

/-- Python `response.headers[k]` (`KeyError` when absent). -/
def Response.header (r : Response) (k : String) : Except PyExc String :=
  match r.headers.find? (fun kv => kv.1 == k) with
  | some kv => .ok kv.2
  | none => .error (.keyError k)

/-- The attribute read `response.staus_code` on line 230 of
`pytweet/http.py`.  `requests.models.Response` defines `status_code`,
`headers`, `text`, `json` but no attribute named `staus_code`, so in
Python this lookup raises `AttributeError` for every response. -/
def Response.staus_code (_r : Response) : Except PyExc Nat :=
  .error (.attributeError "staus_code")

/-- Body of the `try` block of `check_200` (`pytweet/http.py` lines
32-51), before the `except (JSONDecodeError, KeyError)` handler is
applied. -/
def check_200_try (response : Response) : Except PyExc Unit :=
  match response.json with
  | .error e => .error e
  | .ok res =>
    match pyKeys res with
    | .error e => .error e
    | .ok ks =>
      if "errors" ∈ ks then
        match dictGet res "errors" with
        | .error e => .error e
        | .ok errsOpt =>
          if pyTruthyOpt errsOpt then
            match pyIndex0 (errsOpt.getD .null) with
            | .error e => .error e
            | .ok e0 =>
              match pyKeys e0 with
              | .error e => .error e
              | .ok e0ks =>
                if "detail" ∈ e0ks then
                  match pySubscr res "errors" with
                  | .error e => .error e
                  | .ok errsJ =>
                    match pyIndex0 errsJ with
                    | .error e => .error e
                    | .ok e0J =>
                      match pySubscr e0J "detail" with
                      | .error e => .error e
                      | .ok detail =>
                        match pyStartsWith detail "Could not find" with
                        | .error e => .error e
                        | .ok b =>
                          if b then .error .notFoundError else .ok ()
                else if "details" ∈ e0ks then
                  match pySubscr res "errors" with
                  | .error e => .error e
                  | .ok errsJ =>
                    match pyIndex0 errsJ with
                    | .error e => .error e
                    | .ok e0J =>
                      match pySubscr e0J "details" with
                      | .error e => .error e
                      | .ok detailsV =>
                        match pyIndex0 detailsV with
                        | .error e => .error e
                        | .ok d0 =>
                          match pyStartsWith d0 "Cannot parse rule" with
                          | .error e => .error e
                          | .ok b =>
                            if b then
                              match pySubscr res "meta" with
                              | .error e => .error e
                              | .ok meta =>
                                match pySubscr meta "summary" with
                                | .error e => .error e
                                | .ok summary =>
                                  match dictGet summary "created",
                                      dictGet summary "not_created",
                                      dictGet summary "valid",
                                      dictGet summary "invalid" with
                                  | .ok _, .ok _, .ok _, .ok _ =>
                                    .error (.syntaxError
                                      (match d0 with
                                       | .str s => s
                                       | _ => ""))
                                  | .error e, _, _, _ => .error e
                                  | _, .error e, _, _ => .error e
                                  | _, _, .error e, _ => .error e
                                  | _, _, _, .error e => .error e
                            else .ok ()
                else .ok ()
          else
            match pySubscr res "errors" with
            | .error e => .error e
            | .ok errsJ =>
              match pyIndex0 errsJ with
              | .error e => .error e
              | .ok e0J =>
                match pySubscr e0J "detail" with
                | .error e => .error e
                | .ok detail => .error (.pytweetExceptionDetail detail)
      else .ok ()

/-- The `check_200` dispatcher classification for status-200 bodies
(`pytweet/http.py` lines 31-55): runs the `try` body and applies the
`except (JSONDecodeError, KeyError)` handler, which returns normally on
`JSONDecodeError` and raises `PytweetException(res)` on `KeyError`. -/
def check_200 (response : Response) : Except PyExc Unit :=
  match check_200_try response with
  | .ok () => .ok ()
  | .error .jsonDecodeError => .ok ()
  | .error (.keyError _) => .error (.pytweetExceptionVal (response.body.getD .null))
  | .error e => .error e

/-- Authentication material passed to `session.request`: `auth=False`
(no request-level auth) or the OAuth1 session object
(`self._auth.oauth1`). -/
inductive AuthKind where
  | noAuth : AuthKind
  | oauth1 : AuthKind

/-- The argument tuple handed to `self.__session.request(...)` on lines
220-229 of `pytweet/http.py`.  Dict-valued bodies are association
lists; `none` models Python `None` (the channel the code dropped).
Multipart file contents are abstracted to their byte counts: only the
sizes of the uploaded chunks are observable in this embedding. -/
structure WireRequest where
  method : String
  url : String
  headers : List (String × String)
  params : List (String × JVal)
  data : Option (List (String × JVal))
  json : Option (List (String × JVal))
  files : Option (List (String × Nat))
  auth : AuthKind

/-- Observable side effects of the embedded code: an HTTP dispatch
through `session.request` or a `time.sleep`. -/
inductive Effect where
  | dispatch (w : WireRequest) : Effect
  | sleep (seconds : Int) : Effect

/-- Python `time.sleep(s)`: raises `ValueError` for a negative
duration, otherwise blocks (recorded as an effect). -/
def pySleep (s : Int) : Except PyExc Effect :=
  if s < 0 then .error (.valueError "sleep length must be non-negative")
  else .ok (.sleep s)

/-- The `check_error` classifier (`pytweet/http.py` lines 57-113).
Its status-200 block (lines 59-83) duplicates the body of `check_200`
verbatim, so it is embedded through the same definition.  The 429
branch sleeps for `(reset - now) + 1` seconds and then falls through
(returning normally, with no retry); any unknown status raises
`PytweetException`. -/
def check_error (response : Response) (now : Int) :
    List Effect × Except PyExc Unit :=
  let code := response.status_code
  if code = 200 then ([], check_200 response)
  else if code = 201 ∨ code = 202 ∨ code = 204 then ([], .ok ())
  else if code = 400 then ([], .error .badRequests)
  else if code = 401 then ([], .error .unauthorized)
  else if code = 403 then ([], .error .forbidden)
  else if code = 404 then ([], .error .notFound)
  else if code = 409 then ([], .error .conflict)
  else if code = 429 then
    match response.header "x-rate-limit-reset" with
    | .error e => ([], .error e)
    | .ok s =>
      match pyIntOfString s with
      | none => ([], .error (.valueError "invalid literal for int"))
      | some remaining =>
        let sleep_for := (remaining - now) + 1
        match pySleep sleep_for with
        | .error e => ([], .error e)
        | .ok eff => ([eff], .ok ())
  else
    ([], .error (.pytweetException "Unknown exception raised"))

/-- The five credentials stored by `HTTPClient.__init__`
(`pytweet/http.py` lines 129-135); `none` is Python `None`. -/
structure Credentials where
  bearer_token : Option String
  consumer_key : Option String
  consumer_key_secret : Option String
  access_token : Option String
  access_token_secret : Option String

/-- Entries of `self.credentials` in dict insertion order, as iterated
by the `for k, v in self.credentials.items()` loop on line 209. -/
def Credentials.credList (c : Credentials) : List (String × Option String) :=
  [("bearer_token", c.bearer_token),
   ("consumer_key", c.consumer_key),
   ("consumer_key_secret", c.consumer_key_secret),
   ("access_token", c.access_token),
   ("access_token_secret", c.access_token_secret)]

/-- Keyword arguments of `HTTPClient.request` (`pytweet/http.py`
lines 176-190).  Dict-valued arguments are association lists whose
default `{}` is `some []`; `version` may be Python `None` (the upload
call sites pass `version=None`). -/
structure Args where
  method : String
  version : Option String
  path : String
  headers : List (String × String) := []
  params : List (String × JVal) := []
  json : Option (List (String × JVal)) := some []
  data : Option (List (String × JVal)) := some []
  files : Option (List (String × Nat)) := some []
  auth : Bool := false
  is_json : Bool := true
  use_base_url : Bool := true

/-- Python truthiness of a possibly-`None` dict argument. -/
def pyTruthyDict {α : Type} : Option (List α) → Bool
  | none => false
  | some l => !l.isEmpty

/-- Python dict assignment `d[k] = v`: replaces an existing binding in
place, otherwise appends at the end. -/
def dictSet (l : List (String × String)) (k v : String) :
    List (String × String) :=
  if (l.find? (fun kv => kv.1 == k)).isSome then
    l.map (fun kv => if kv.1 == k then (kv.1, v) else kv)
  else l ++ [(k, v)]

/-- Python string interpolation of a possibly-`None` value
(`f"Bearer {self.bearer_token}"` renders `None` as the string
`"None"`). -/
def pyStrOfOpt : Option String → String
  | none => "None"
  | some s => s

/-- Value of `self.base_url` (`pytweet/http.py` line 157). -/
def base_url : String := "https://api.twitter.com/"

/-- Value of `self.upload_url` (`pytweet/http.py` line 158). -/
def upload_url : String := "https://upload.twitter.com/1.1/media/upload.json"

/-- The `User-Agent` value built on lines 202-206; the interpolated
Python and requests version numbers are abstracted to fixed digits,
which no claim observes. -/
def userAgent : String :=
  "Py-Tweet (https://github.com/PyTweet/PyTweet/) Python/3.0.0 requests/2.0"

/-- URL construction of `HTTPClient.request` lines 191-194:
`base_url + version + path` when `use_base_url` (a `None` version makes
the string concatenation raise `TypeError`), else the bare `path`. -/
def buildURL (args : Args) : Except PyExc String :=
  if args.use_base_url then
    match args.version with
    | none => .error (.typeError "can only concatenate str to str")
    | some v => .ok (base_url ++ v ++ args.path)
  else .ok args.path

/-- The credential gate of `HTTPClient.request` lines 208-212: when
OAuth1 signing is requested, the `for k, v in self.credentials.items()`
loop raises `PytweetException` naming the first credential whose value
is `None`; otherwise the OAuth1 auth object is used.  Without `auth`,
the boolean `False` (no request-level auth) is passed through. -/
def authCheck (creds : Credentials) (auth : Bool) :
    Except PyExc AuthKind :=
  if auth then
    match creds.credList.find? (fun kv => kv.2.isNone) with
    | some kv =>
      .error (.pytweetException
        (kv.1 ++ " is a required credential for this action."))
    | none => .ok AuthKind.oauth1
  else .ok AuthKind.noAuth

/-- Lines 191-229 of `HTTPClient.request`, up to and including the
choice of arguments for `session.request`: URL construction, the
`OauthSession` setup of lines 196-199 (construction only, no observable
effect in this embedding), the `Authorization` / `User-Agent` header
writes, the credential check of lines 208-212, the body-channel
resolution of lines 214-217 (`if data: json = None` then
`if json: data = None`), and the `method.upper()` normalization. -/
def requestPrelude (creds : Credentials) (args : Args) :
    Except PyExc WireRequest :=
  match buildURL args with
  | .error e => .error e
  | .ok url =>
    let headers1 :=
      if (args.headers.find? (fun kv => kv.1 == "Authorization")).isSome then
        args.headers
      else
        dictSet args.headers "Authorization"
          ("Bearer " ++ pyStrOfOpt creds.bearer_token)
    let headers2 := dictSet headers1 "User-Agent" userAgent
    match authCheck creds args.auth with
    | .error e => .error e
    | .ok authKind =>
      let json1 := if pyTruthyDict args.data then none else args.json
      let data1 := if pyTruthyDict json1 then none else args.data
      .ok {
        method := strUpper args.method
        url := url
        headers := headers2
        params := args.params
        data := data1
        json := json1
        files := args.files
        auth := authKind
      }

/-- Result returned by `HTTPClient.request` to its caller: `None`
(the `return None` of line 237), the raw text body, a decoded JSON
body, or the empty list of line 282. -/
inductive ReqResult where
  | noneV : ReqResult
  | text (s : String) : ReqResult
  | jsonV (v : JVal) : ReqResult
  | emptyList : ReqResult

/-- Lines 271-287 of `HTTPClient.request`: body decoding and the
`meta.result_count == 0` empty-collection short circuit.  The `== 0`
comparison follows Python, where `False == 0` also holds. -/
def parseBody (response : Response) (is_json : Bool) :
    Except PyExc ReqResult :=
  if is_json then
    match response.body with
    | none => .ok (.text response.text)
    | some res =>
      match pyKeys res with
      | .error e => .error e
      | .ok ks =>
        if "meta" ∈ ks then
          match pySubscr res "meta" with
          | .error (.keyError _) => .ok (.jsonV res)
          | .error e => .error e
          | .ok m =>
            match pySubscr m "result_count" with
            | .error (.keyError _) => .ok (.jsonV res)
            | .error e => .error e
            | .ok rc =>
              match rc with
              | .num 0 => .ok .emptyList
              | .bool false => .ok .emptyList
              | _ => .ok (.jsonV res)
        else .ok (.jsonV res)
  else .ok (.text response.text)

/-- Lines 233-287 of `HTTPClient.request`: classification of the
status `code`, with the sleep-and-single-retry of the 429 branch
(lines 254-268) followed — for 200 after `check_200`, and for 429 with
the retry response — by the body decoding of lines 271-287.  The
returned effects are those after the initial dispatch. -/
def classify (w : WireRequest) (response retryResponse : Response)
    (now : Int) (is_json : Bool) (code : Nat) :
    List Effect × Except PyExc ReqResult :=
  if code = 200 then
    match check_200 response with
    | .error e => ([], .error e)
    | .ok () => ([], parseBody response is_json)
  else if code = 201 ∨ code = 202 ∨ code = 204 then ([], .ok .noneV)
  else if code = 400 then ([], .error .badRequests)
  else if code = 401 then ([], .error .unauthorized)
  else if code = 403 then ([], .error .forbidden)
  else if code = 404 then ([], .error .notFound)
  else if code = 409 then ([], .error .conflict)
  else if code = 429 then
    match response.header "x-rate-limit-reset" with
    | .error e => ([], .error e)
    | .ok s =>
      match pyIntOfString s with
      | none => ([], .error (.valueError "invalid literal for int"))
      | some remaining =>
        let sleep_for := (remaining - now) + 1
        match pySleep sleep_for with
        | .error e => ([], .error e)
        | .ok eff => ([eff, .dispatch w], parseBody retryResponse is_json)
  else
    ([], .error (.pytweetException "Unknown exception raised"))

/-- The `HTTPClient.request` method (`pytweet/http.py` lines 176-287),
faithful to the source: after the prelude it dispatches exactly once
and then reads `response.staus_code` (line 230), a lookup that raises
`AttributeError`, so the classification branch below it never runs.
The two response arguments supply the environment: the response to the
dispatch and the response a 429-branch retry would receive. -/
def request (creds : Credentials) (args : Args)
    (response retryResponse : Response) (now : Int) :
    List Effect × Except PyExc ReqResult :=
  match requestPrelude creds args with
  | .error e => ([], .error e)
  | .ok w =>
    match Response.staus_code response with
    | .error e => ([.dispatch w], .error e)
    | .ok code =>
      let (effs, r) := classify w response retryResponse now args.is_json code
      (.dispatch w :: effs, r)

/-- Variant of `request` with the line-230 status read corrected to the
existing `status_code` attribute.  It expresses the behaviour of the
classification code on lines 233-287, which the misspelling makes
unreachable in the source; used to state how the code diverges from the
specification because of that slip. -/
def request_fixed (creds : Credentials) (args : Args)
    (response retryResponse : Response) (now : Int) :
    List Effect × Except PyExc ReqResult :=
  match requestPrelude creds args with
  | .error e => ([], .error e)
  | .ok w =>
    let (effs, r) :=
      classify w response retryResponse now args.is_json response.status_code
    (.dispatch w :: effs, r)

/-- Python `is None` test on a dict-`get` result (`None` is either an
absent key or a JSON `null` value). -/
def isPyNone : Option JVal → Bool
  | none => true
  | some .null => true
  | _ => false

/-- Python `v == s` for a string literal `s`: `False` (no error) when
`v` is not a string. -/
def pyEqStr : JVal → String → Bool
  | .str t, s => t == s
  | _, _ => false

/-- Python `int(v)` over a possibly-`None` decoded JSON value. -/
def pyInt : Option JVal → Except PyExc Int
  | some (.num n) => .ok n
  | some (.bool b) => .ok (if b then 1 else 0)
  | some (.str s) =>
    match pyIntOfString s with
    | some n => .ok n
    | none => .error (.valueError "invalid literal for int")
  | some .null => .error (.typeError "int of NoneType")
  | none => .error (.typeError "int of NoneType")
  | some _ => .error (.typeError "int of non-number")

/-- Python `res.get(k, None)` where `res` is the value returned by
`HTTPClient.request`: only a decoded JSON dict has `.get`. -/
def ReqResult.pyGet (r : ReqResult) (k : String) :
    Except PyExc (Option JVal) :=
  match r with
  | .jsonV v => dictGet v k
  | _ => .error (.attributeError "get")

/-- An opened binary reader (`open_file` in `HTTPClient.upload`),
abstracted to its length and current position; `read` returns the
number of bytes read (chunk contents are not observable in this
embedding) and `tell` the position. -/
structure Reader where
  len : Nat
  pos : Nat

/-- Python `f.read(n)`: reads at most `n` bytes, stopping at the end
of the file, and advances the position accordingly. -/
def Reader.read (r : Reader) (n : Nat) : Nat × Reader :=
  (min n (r.len - r.pos), { r with pos := min r.len (r.pos + n) })

/-- Python `f.tell()`. -/
def Reader.tell (r : Reader) : Nat := r.pos

/-- The `while bytes_sent < file.total_bytes` loop of the APPEND branch
of `HTTPClient.upload` (`pytweet/http.py` lines 355-371), faithful to
the source (each iteration goes through `request`, whose line-230
`staus_code` read raises `AttributeError`).  `resps` supplies the
server response per dispatched segment; `fuel` is an explicit bound on
the unbounded source loop; the `.ok` value is the loop's final
`(segment_id, bytes_sent)` state, which the source keeps in locals. -/
def uploadAppendLoop (creds : Credentials) (resps : Nat → Response)
    (now : Int) (total_bytes : Nat) (media_id : JVal) :
    Nat → Nat → Nat → Reader → List Effect × Except PyExc (Nat × Nat)
  | fuel, segment_id, bytes_sent, reader =>
    if bytes_sent < total_bytes then
      match fuel with
      | 0 => ([], .error .fuelExhausted)
      | Nat.succ fuel' =>
        let rd := reader.read (4 * 1024 * 1024)
        let args : Args := {
          method := "POST"
          version := none
          path := upload_url
          data := some [("command", .str "APPEND"), ("media_id", media_id),
                        ("segment_index", .num (Int.ofNat segment_id))]
          files := some [("media", rd.1)]
          auth := true
          use_base_url := false }
        match request creds args (resps segment_id) (resps segment_id) now with
        | (effs, .error e) => (effs, .error e)
        | (effs, .ok _) =>
          let bytes_sent' := rd.2.tell
          let next := uploadAppendLoop creds resps now total_bytes media_id
            fuel' (segment_id + 1) bytes_sent' rd.2
          (effs ++ next.1, next.2)
    else ([], .ok (segment_id, bytes_sent))

/-- Same loop with each dispatch going through `request_fixed` instead
of `request`: the behaviour the APPEND branch has once the line-230
`staus_code` slip is corrected. -/
def uploadAppendLoop_fixed (creds : Credentials) (resps : Nat → Response)
    (now : Int) (total_bytes : Nat) (media_id : JVal) :
    Nat → Nat → Nat → Reader → List Effect × Except PyExc (Nat × Nat)
  | fuel, segment_id, bytes_sent, reader =>
    if bytes_sent < total_bytes then
      match fuel with
      | 0 => ([], .error .fuelExhausted)
      | Nat.succ fuel' =>
        let rd := reader.read (4 * 1024 * 1024)
        let args : Args := {
          method := "POST"
          version := none
          path := upload_url
          data := some [("command", .str "APPEND"), ("media_id", media_id),
                        ("segment_index", .num (Int.ofNat segment_id))]
          files := some [("media", rd.1)]
          auth := true
          use_base_url := false }
        match request_fixed creds args (resps segment_id) (resps segment_id)
            now with
        | (effs, .error e) => (effs, .error e)
        | (effs, .ok _) =>
          let bytes_sent' := rd.2.tell
          let next := uploadAppendLoop_fixed creds resps now total_bytes
            media_id fuel' (segment_id + 1) bytes_sent' rd.2
          (effs ++ next.1, next.2)
    else ([], .ok (segment_id, bytes_sent))

/-- The APPEND branch of `HTTPClient.upload` (`pytweet/http.py` lines
343-371): opens the reader, requires a truthy `media_id` (raising
`ValueError` otherwise), then runs the segment loop. -/
def uploadAppend (creds : Credentials) (resps : Nat → Response)
    (now : Int) (total_bytes : Nat) (reader : Reader)
    (media_id : Option JVal) (fuel : Nat) :
    List Effect × Except PyExc (Nat × Nat) :=
  if !pyTruthyOpt media_id then
    ([], .error (.valueError "media_id is None! Please specified it."))
  else
    uploadAppendLoop creds resps now total_bytes (media_id.getD .null)
      fuel 0 0 reader

/-- `uploadAppend` with the corrected status read (`request_fixed`) in
every dispatch. -/
def uploadAppend_fixed (creds : Credentials) (resps : Nat → Response)
    (now : Int) (total_bytes : Nat) (reader : Reader)
    (media_id : Option JVal) (fuel : Nat) :
    List Effect × Except PyExc (Nat × Nat) :=
  if !pyTruthyOpt media_id then
    ([], .error (.valueError "media_id is None! Please specified it."))
  else
    uploadAppendLoop_fixed creds resps now total_bytes (media_id.getD .null)
      fuel 0 0 reader

/-- Arguments of the STATUS poll issued inside `CheckStatus`
(`pytweet/http.py` lines 312-319): a GET against `self.base_url` with
`use_base_url=False`, `auth=True` and the STATUS command parameters. -/
def statusArgs (media_id : JVal) : Args := {
  method := "GET"
  version := none
  path := base_url
  params := [("command", .str "STATUS"), ("media_id", media_id)]
  auth := true
  use_base_url := false }

/-- The nested `CheckStatus` function of `HTTPClient.upload`
(`pytweet/http.py` lines 295-322), faithful to the source's order of
checks: empty `processing_info` returns; then `state` is read; then a
missing `check_after_secs` returns (before any state test); then
`succeeded` returns, `failed` raises `PytweetException`; otherwise it
sleeps and issues the STATUS request through `request` (whose line-230
`staus_code` read raises `AttributeError`), recursing on the
`processing_info` of the poll result.  `pollResp` gives the server
response to the poll at each recursion depth and `fuel` bounds the
source's unbounded recursion. -/
def CheckStatus (creds : Credentials) (pollResp : Nat → Response)
    (now : Int) (media_id : JVal) :
    Nat → Nat → Option JVal → List Effect × Except PyExc Unit
  | fuel, depth, processing_info =>
    if !pyTruthyOpt processing_info then ([], .ok ())
    else
      let piv := processing_info.getD .null
      match pySubscr piv "state" with
      | .error e => ([], .error e)
      | .ok state =>
        match dictGet piv "check_after_secs" with
        | .error e => ([], .error e)
        | .ok secondsOpt =>
          if isPyNone secondsOpt then ([], .ok ())
          else if pyEqStr state "succeeded" then ([], .ok ())
          else if pyEqStr state "failed" then
            ([], .error (.pytweetException "Failed to finalize Media!"))
          else
            match (match secondsOpt.getD .null with
                   | .num n => pySleep n
                   | _ => .error (.typeError "an integer is required")) with
            | .error e => ([], .error e)
            | .ok sleepEff =>
              match request creds (statusArgs media_id) (pollResp depth)
                  (pollResp depth) now with
              | (effs, .error e) => (sleepEff :: effs, .error e)
              | (effs, .ok res) =>
                match res.pyGet "processing_info" with
                | .error e => (sleepEff :: effs, .error e)
                | .ok pi2 =>
                  match fuel with
                  | 0 => (sleepEff :: effs, .error .fuelExhausted)
                  | Nat.succ fuel' =>
                    let next := CheckStatus creds pollResp now media_id
                      fuel' (depth + 1) pi2
                    (sleepEff :: effs ++ next.1, next.2)

/-- The FINALIZE branch of `HTTPClient.upload` (`pytweet/http.py`
lines 373-383): issues the FINALIZE request through `request` and hands
the optional `processing_info` of the result to `CheckStatus`. -/
def uploadFinalize (creds : Credentials) (finalizeResp : Response)
    (pollResp : Nat → Response) (now : Int) (media_id : Option JVal)
    (fuel : Nat) : List Effect × Except PyExc Unit :=
  let args : Args := {
    method := "POST"
    version := none
    path := upload_url
    data := some [("command", .str "FINALIZE"),
                  ("media_id", media_id.getD .null)]
    auth := true
    use_base_url := false }
  match request creds args finalizeResp finalizeResp now with
  | (effs, .error e) => (effs, .error e)
  | (effs, .ok res) =>
    match res.pyGet "processing_info" with
    | .error e => (effs, .error e)
    | .ok pi =>
      let next := CheckStatus creds pollResp now (media_id.getD .null)
        fuel 0 pi
      (effs ++ next.1, next.2)

/-- A constructed `pytweet.user.User` object, identified by the payload
dict passed to `User.__init__`. -/
structure UserObj where
  data : JVal

/-- The `User.__init__` constructor (`pytweet/user.py` lines 66-72):
stores `data`, resolves `_payload = data.get("data") or data`, reads
`data.get("includes")`, and calls `super().__init__(self.id)` where the
`id` property is `int(self._payload.get("id"))` — so construction
raises when `data` is not a dict or the id is missing or
non-numeric. -/
def User.mk_init (data : JVal) : Except PyExc UserObj :=
  match dictGet data "includes" with
  | .error e => .error e
  | .ok _includes =>
    match dictGet data "data" with
    | .error e => .error e
    | .ok payloadOpt =>
      let payload :=
        if pyTruthyOpt payloadOpt then payloadOpt.getD .null else data
      match dictGet payload "id" with
      | .error e => .error e
      | .ok idOpt =>
        match pyInt idOpt with
        | .error e => .error e
        | .ok _ => .ok ⟨data⟩

/-- The `Tweet.author` property together with the payload resolution of
`Tweet.__init__` (`pytweet/tweet.py` lines 198-224): with
`_includes = data.get("includes")`, the property returns
`User(_includes.get("users")[0])` when `_includes` and
`_includes.get("users")` are truthy, and `None` otherwise.  The first
entry of `includes.users` is taken as-is; no lookup against the root
payload's `author_id` is performed. -/
def Tweet.author (data : JVal) : Except PyExc (Option UserObj) :=
  match dictGet data "data" with
  | .error e => .error e
  | .ok payloadOpt =>
    let _payload :=
      if pyTruthyOpt payloadOpt then payloadOpt.getD .null else data
    match dictGet data "includes" with
    | .error e => .error e
    | .ok includesOpt =>
      if pyTruthyOpt includesOpt then
        match dictGet (includesOpt.getD .null) "users" with
        | .error e => .error e
        | .ok usersOpt =>
          if pyTruthyOpt usersOpt then
            match pyIndex0 (usersOpt.getD .null) with
            | .error e => .error e
            | .ok u0 =>
              match User.mk_init u0 with
              | .error e => .error e
              | .ok u => .ok (some u)
          else .ok none
      else .ok none

/-- Pure field lookup used only by the spec-side author resolution. -/
def getField : JVal → String → Option JVal
  | .obj fs, k => (fs.find? (fun kv => kv.1 == k)).map (fun kv => kv.2)
  | _, _ => none

/-- Follows the spec's words (sections 4.5 and the claim): resolve the
tweet's author by indexing `includes.users` by its identifying `id`
field and looking up the entry whose id equals the root payload's
`author_id`; the result is absent when no match exists.  Stated for
comparison with `Tweet.author`, which is translated from the source. -/
def author_spec_lookup (data : JVal) : Option JVal :=
  let root := (getField data "data").getD data
  match getField root "author_id", getField data "includes" with
  | some (.str aid), some includes =>
    match getField includes "users" with
    | some (.arr users) =>
      users.find? (fun u =>
        match getField u "id" with
        | some (.str uid) => uid == aid
        | _ => false)
    | _ => none
  | _, _ => none

/-- Number of `time.sleep` effects in a trace. -/
def sleepCount (effs : List Effect) : Nat :=
  (effs.filter (fun e => match e with | .sleep _ => true | _ => false)).length

/-- Number of `session.request` dispatches in a trace. -/
def dispatchCount (effs : List Effect) : Nat :=
  (effs.filter (fun e => match e with | .dispatch _ => true | _ => false)).length

/-- The `segment_index` form field of each dispatched request in a
trace, in order. -/
def segmentIndexes (effs : List Effect) : List (Option JVal) :=
  effs.filterMap (fun e =>
    match e with
    | .dispatch w =>
      some (((w.data.getD []).find? (fun kv => kv.1 == "segment_index")).map
        (fun kv => kv.2))
    | _ => none)

/-- The multipart file payloads (name, byte count) of each dispatched
request in a trace, in order. -/
def filePayloads (effs : List Effect) : List (List (String × Nat)) :=
  effs.filterMap (fun e =>
    match e with
    | .dispatch w => some (w.files.getD [])
    | _ => none)

/-- The name of the first credential the line-209 loop finds to be
`None`. -/
def firstMissingName (creds : Credentials) : Option String :=
  (creds.credList.find? (fun kv => kv.2.isNone)).map (fun kv => kv.1)

/-- A full credential set, used by concrete witnesses. -/
def creds0 : Credentials :=
  ⟨some "B", some "ck", some "cks", some "at", some "ats"⟩

/-- A credential set whose `access_token` is missing. -/
def creds1 : Credentials :=
  ⟨some "B", some "ck", some "cks", none, some "ats"⟩

/-- Response constructor shorthand for concrete instances. -/
def mkResp (code : Nat) (hs : List (String × String)) (b : Option JVal)
    (t : String) : Response :=
  { status_code := code, headers := hs, body := b, text := t }

/-- A plain GET request argument set against version 2, used by
concrete instances. -/
def args0 : Args := { method := "get", version := some "2", path := "/x" }

/-- The wire request produced by the prelude for `creds0` / `args0`. -/
def w0 : WireRequest := {
  method := "GET"
  url := base_url ++ "2" ++ "/x"
  headers := [("Authorization", "Bearer B"), ("User-Agent", userAgent)]
  params := []
  data := some []
  json := some []
  files := some []
  auth := .noAuth }

/-- Body shape with a populated `errors` array whose first entry has a
`detail` field of value `d` (followed by fields `erest`), further
entries `rest`, and further top-level fields `post`. -/
def errBody (d : String) (erest : List (String × JVal)) (rest : List JVal)
    (post : List (String × JVal)) : JVal :=
  .obj (("errors", .arr (.obj (("detail", .str d) :: erest) :: rest)) :: post)

/-- A user entry of `includes.users` with id `"1"`. -/
def user1 : JVal := .obj [("id", .str "1"), ("name", .str "x")]

/-- A tweet payload whose root `author_id` is `"999"` while
`includes.users` contains only the unrelated `user1` (id `"1"`). -/
def tweetData0 : JVal :=
  .obj [("data", .obj [("author_id", .str "999"), ("id", .str "5"),
          ("text", .str "hi")]),
        ("includes", .obj [("users", .arr [user1])])]

/-- `args0` with OAuth1 signing requested. -/
def argsAuth : Args := { args0 with auth := true }

/-- Request arguments supplying both a non-empty JSON body and a
non-empty form body. -/
def argsBoth : Args := {
  method := "post"
  version := some "2"
  path := "/x"
  json := some [("a", .num 1)]
  data := some [("b", .num 2)] }

/-- The wire request produced by the prelude for `creds0` /
`argsBoth`. -/
def wBoth : WireRequest := {
  method := "POST"
  url := base_url ++ "2" ++ "/x"
  headers := [("Authorization", "Bearer B"), ("User-Agent", userAgent)]
  params := []
  data := some [("b", .num 2)]
  json := none
  files := some []
  auth := .noAuth }

/-- The wire request produced by the prelude for `creds0` and the
STATUS poll arguments with media id `"m"`. -/
def wStatus0 : WireRequest := {
  method := "GET"
  url := base_url
  headers := [("Authorization", "Bearer B"), ("User-Agent", userAgent)]
  params := [("command", .str "STATUS"), ("media_id", .str "m")]
  data := some []
  json := some []
  files := some []
  auth := .oauth1 }

/-- C3: every invocation of `HTTPClient.request` whose prelude reaches
the dispatch performs exactly that one dispatch and then fails with
`AttributeError` from the misspelled `response.staus_code` read of line
230, for every response — before any 200/201/204/4xx/429 classification
branch or the retry logic can run. -/
theorem C3_thm (creds : Credentials) (args : Args)
    (resp retry : Response) (now : Int) (w : WireRequest)
    (hw : requestPrelude creds args = .ok w) :
    request creds args resp retry now =
      ([.dispatch w], .error (.attributeError "staus_code")) := by
  simp [request, hw, Response.staus_code]

/-- C3 witness: the concrete call with full credentials and a 200
response fails with the `staus_code` `AttributeError` after its single
dispatch. -/
theorem C3_witness :
    requestPrelude creds0 args0 = .ok w0 ∧
    request creds0 args0 (mkResp 200 [] (some (.obj [])) "T")
      (mkResp 200 [] (some (.obj [])) "T") 0 =
      ([.dispatch w0], .error (.attributeError "staus_code")) :=
  ⟨rfl, C3_thm creds0 args0 _ _ 0 w0 rfl⟩

/-- C7: for statuses 201, 202 and 204 the faithful `request` raises
`AttributeError` (never returning the empty success), while the
classification code as written — `request_fixed`, with the line-230
status read corrected — returns `None` immediately for every body,
parsed or unparsable, with no body decoding attempted. -/
theorem C7_thm (b : Option JVal) (t : String) :
    (request creds0 args0 (mkResp 201 [] b t) (mkResp 200 [] b t) 0).2 =
      .error (.attributeError "staus_code") ∧
    request_fixed creds0 args0 (mkResp 201 [] b t) (mkResp 200 [] b t) 0 =
      ([.dispatch w0], .ok .noneV) ∧
    request_fixed creds0 args0 (mkResp 202 [] b t) (mkResp 200 [] b t) 0 =
      ([.dispatch w0], .ok .noneV) ∧
    request_fixed creds0 args0 (mkResp 204 [] b t) (mkResp 200 [] b t) 0 =
      ([.dispatch w0], .ok .noneV) :=
  ⟨rfl, rfl, rfl, rfl⟩

/-- C8: on the 200 response whose body is
`{"meta": {"result_count": 0}}` the faithful `request` raises
`AttributeError`, while the classification code as written
(`request_fixed`) returns the empty list of line 282. -/
theorem C8_thm :
    (request creds0 args0
      (mkResp 200 [] (some (.obj [("meta", .obj [("result_count", .num 0)])]))
        "T")
      (mkResp 200 [] none "T") 0).2 =
      .error (.attributeError "staus_code") ∧
    request_fixed creds0 args0
      (mkResp 200 [] (some (.obj [("meta", .obj [("result_count", .num 0)])]))
        "T")
      (mkResp 200 [] none "T") 0 =
      ([.dispatch w0], .ok .emptyList) :=
  ⟨rfl, rfl⟩

/-- C4: for a 10 MiB file (declared `total_bytes` equal to the bytes
readable from position 0), the faithful APPEND branch dispatches only
segment 0 and then fails with the `staus_code` `AttributeError` from
inside `request`, whereas the loop as written (`uploadAppend_fixed`,
status read corrected) issues exactly 3 APPEND dispatches with
`segment_index` 0, 1, 2, chunks of 4 MiB, 4 MiB and 2 MiB, and finishes
with cumulative bytes-sent equal to the file size. -/
theorem C4_thm :
    (uploadAppend creds0 (fun _ => mkResp 200 [] (some (.obj [])) "T") 0
      10485760 ⟨10485760, 0⟩ (some (.str "m1")) 10).2 =
      .error (.attributeError "staus_code") ∧
    dispatchCount (uploadAppend creds0
      (fun _ => mkResp 200 [] (some (.obj [])) "T") 0
      10485760 ⟨10485760, 0⟩ (some (.str "m1")) 10).1 = 1 ∧
    segmentIndexes (uploadAppend creds0
      (fun _ => mkResp 200 [] (some (.obj [])) "T") 0
      10485760 ⟨10485760, 0⟩ (some (.str "m1")) 10).1 =
      [some (.num 0)] ∧
    (uploadAppend_fixed creds0 (fun _ => mkResp 200 [] (some (.obj [])) "T") 0
      10485760 ⟨10485760, 0⟩ (some (.str "m1")) 10).2 =
      .ok (3, 10485760) ∧
    segmentIndexes (uploadAppend_fixed creds0
      (fun _ => mkResp 200 [] (some (.obj [])) "T") 0
      10485760 ⟨10485760, 0⟩ (some (.str "m1")) 10).1 =
      [some (.num 0), some (.num 1), some (.num 2)] ∧
    filePayloads (uploadAppend_fixed creds0
      (fun _ => mkResp 200 [] (some (.obj [])) "T") 0
      10485760 ⟨10485760, 0⟩ (some (.str "m1")) 10).1 =
      [[("media", 4194304)], [("media", 4194304)], [("media", 2097152)]] ∧
    dispatchCount (uploadAppend_fixed creds0
      (fun _ => mkResp 200 [] (some (.obj [])) "T") 0
      10485760 ⟨10485760, 0⟩ (some (.str "m1")) 10).1 = 3 :=
  ⟨rfl, rfl, rfl, rfl, rfl, rfl, rfl⟩

/-- C1 counterexample: a 200 response whose body is
`{"errors": [{"detail": "Boom"}]}` — a populated errors array whose
detail does not start with "Could not find" — is classified as a plain
success by both `check_200` and `check_error`, not as any typed
error. -/
theorem C1_counterexample :
    check_200 (mkResp 200 [] (some (errBody "Boom" [] [] [])) "T") =
      .ok () ∧
    check_error (mkResp 200 [] (some (errBody "Boom" [] [] [])) "T") 0 =
      ([], .ok ()) :=
  ⟨rfl, rfl⟩

/-- C2 counterexample: on a 429 response carrying
`x-rate-limit-reset = 1005` with `now = 1000` the claim requires a
6-second block and a single re-issue; the source `request` instead
raises `AttributeError` at the line-230 status read after its single
dispatch — no sleep, no retry. -/
theorem C2_counterexample :
    request creds0 args0
      (mkResp 429 [("x-rate-limit-reset", "1005")] none "T")
      (mkResp 200 [] (some (.obj [("a", .num 1)])) "T") 1000 =
      ([.dispatch w0], .error (.attributeError "staus_code")) ∧
    sleepCount (request creds0 args0
      (mkResp 429 [("x-rate-limit-reset", "1005")] none "T")
      (mkResp 200 [] (some (.obj [("a", .num 1)])) "T") 1000).1 = 0 ∧
    dispatchCount (request creds0 args0
      (mkResp 429 [("x-rate-limit-reset", "1005")] none "T")
      (mkResp 200 [] (some (.obj [("a", .num 1)])) "T") 1000).1 = 1 :=
  ⟨rfl, rfl, rfl⟩

/-- C5 counterexample: a `processing_info` of
`{"state": "failed"}` — state failed, no `check_after_secs` — makes
`CheckStatus` return success instead of raising the upload error,
because the missing-`check_after_secs` early return precedes the state
checks. -/
theorem C5_counterexample :
    CheckStatus creds0 (fun _ => mkResp 200 [] none "T") 0 (.str "m") 5 0
      (some (.obj [("state", .str "failed")])) = ([], .ok ()) :=
  rfl

/-- C10 counterexample: on `tweetData0` the root's `author_id` is
`"999"` and `includes.users` holds only the unrelated `user1`
(id `"1"`); the spec-side id lookup finds no match, yet `Tweet.author`
returns `user1` — the first entry — rather than `None`. -/
theorem C10_counterexample :
    Tweet.author tweetData0 = .ok (some ⟨user1⟩) ∧
    author_spec_lookup tweetData0 = none :=
  ⟨rfl, rfl⟩

/-- C1 (amended): for a 200 body with a populated `errors` array whose
first entry carries a string `detail`, both `check_200` and
`check_error` raise `NotFoundError` when the detail starts with
"Could not find", and classify the response as a plain success —
raising nothing — for every other detail; the generic-error branch of
the source is only reachable for an empty `errors` array. -/
theorem C1_amended (d : String) (erest : List (String × JVal))
    (rest : List JVal) (post : List (String × JVal))
    (hs : List (String × String)) (t : String) (now : Int) :
    (pyStartsWith (.str d) "Could not find" = .ok true →
      check_200 (mkResp 200 hs (some (errBody d erest rest post)) t) =
        .error .notFoundError ∧
      check_error (mkResp 200 hs (some (errBody d erest rest post)) t) now =
        ([], .error .notFoundError)) ∧
    (pyStartsWith (.str d) "Could not find" = .ok false →
      check_200 (mkResp 200 hs (some (errBody d erest rest post)) t) =
        .ok () ∧
      check_error (mkResp 200 hs (some (errBody d erest rest post)) t) now =
        ([], .ok ())) := by
  constructor <;> intro hb <;>
    refine ⟨?_, ?_⟩ <;>
    simp [check_200, check_200_try, check_error, mkResp, errBody,
      Response.json, pyKeys, dictGet, pySubscr, pyIndex0,
      pyTruthyOpt, pyTruthy, List.find?, hb]

/-- C1 witness: the two branches of the amended claim at concrete
details. -/
theorem C1_witness :
    check_200 (mkResp 200 []
      (some (errBody "Could not find user with id: 123" [] [] [])) "T") =
      .error .notFoundError ∧
    check_200 (mkResp 200 [] (some (errBody "Some other error" [] [] []))
      "T") = .ok () :=
  ⟨((C1_amended "Could not find user with id: 123" [] [] [] [] "T" 0).1
      rfl).1,
   ((C1_amended "Some other error" [] [] [] [] "T" 0).2 rfl).1⟩

/-- C2 (amended): the 429 branch is unreachable in the source `request`
(the line-230 status read raises `AttributeError` after the single
dispatch); in the classification code as written (`request_fixed`) the
sleep is `(reset - now) + 1` with no lower clamp — a sufficiently past
reset makes `time.sleep` raise `ValueError` instead of sleeping — and
on success the identical request is re-issued exactly once, whose
response is returned through body decoding alone, with no status
classification and hence no third attempt even if it is again 429. -/
theorem C2_amended (creds : Credentials) (args : Args)
    (resp retry : Response) (now r : Int) (s : String) (w : WireRequest)
    (hw : requestPrelude creds args = .ok w)
    (hcode : resp.status_code = 429)
    (hhdr : resp.header "x-rate-limit-reset" = .ok s)
    (hr : pyIntOfString s = some r) :
    (0 ≤ r - now + 1 →
      request_fixed creds args resp retry now =
        ([.dispatch w, .sleep (r - now + 1), .dispatch w],
          parseBody retry args.is_json)) ∧
    (r - now + 1 < 0 →
      request_fixed creds args resp retry now =
        ([.dispatch w],
          .error (.valueError "sleep length must be non-negative"))) ∧
    request creds args resp retry now =
      ([.dispatch w], .error (.attributeError "staus_code")) := by
  refine ⟨?_, ?_, ?_⟩
  · intro h
    have hcond : ((r - now) + 1 < 0) = False := eq_false (not_lt.mpr h)
    simp [request_fixed, classify, hw, hcode, hhdr, hr, pySleep, hcond]
  · intro h
    have hcond : ((r - now) + 1 < 0) = True := eq_true h
    simp [request_fixed, classify, hw, hcode, hhdr, hr, pySleep, hcond]
  · simp [request, hw, Response.staus_code]

/-- C2 witness: with reset 1005 and now 1000 the corrected
classification sleeps 6 seconds and re-issues once. -/
theorem C2_witness :
    (0:Int) ≤ 1005 - 1000 + 1 ∧
    request_fixed creds0 args0
      (mkResp 429 [("x-rate-limit-reset", "1005")] none "T")
      (mkResp 200 [] (some (.obj [("a", .num 1)])) "T") 1000 =
      ([.dispatch w0, .sleep (1005 - 1000 + 1), .dispatch w0],
        parseBody (mkResp 200 [] (some (.obj [("a", .num 1)])) "T")
          args0.is_json) :=
  ⟨by norm_num,
   (C2_amended creds0 args0
     (mkResp 429 [("x-rate-limit-reset", "1005")] none "T")
     (mkResp 200 [] (some (.obj [("a", .num 1)])) "T") 1000 1005 "1005" w0
     rfl rfl rfl rfl).1 (by norm_num)⟩

/-- C5 (amended): `CheckStatus` succeeds immediately when
`processing_info` is absent, when `check_after_secs` is absent — even
for state `failed` — or when the state is `succeeded`; it raises
`PytweetException` only when the state is `failed` and
`check_after_secs` is present; otherwise (pending/in-progress with a
poll interval) it sleeps for `check_after_secs` and issues one STATUS
dispatch, which aborts with the `staus_code` `AttributeError` before
any recursion on the poll result can happen. -/
theorem C5_amended (creds : Credentials) (pollResp : Nat → Response)
    (now : Int) (mid : JVal) (fuel depth : Nat) (st : String) (s : Int)
    (w : WireRequest)
    (hs : 0 ≤ s) (h1 : st ≠ "succeeded") (h2 : st ≠ "failed")
    (hw : requestPrelude creds (statusArgs mid) = .ok w) :
    CheckStatus creds pollResp now mid fuel depth none = ([], .ok ()) ∧
    CheckStatus creds pollResp now mid fuel depth
      (some (.obj [("state", .str st)])) = ([], .ok ()) ∧
    CheckStatus creds pollResp now mid fuel depth
      (some (.obj [("state", .str "succeeded"), ("check_after_secs", .num s)]))
      = ([], .ok ()) ∧
    CheckStatus creds pollResp now mid fuel depth
      (some (.obj [("state", .str "failed"), ("check_after_secs", .num s)]))
      = ([], .error (.pytweetException "Failed to finalize Media!")) ∧
    CheckStatus creds pollResp now mid fuel depth
      (some (.obj [("state", .str st), ("check_after_secs", .num s)]))
      = ([.sleep s, .dispatch w], .error (.attributeError "staus_code")) := by
  have e1 : (st == "succeeded") = false := by
    simpa using h1
  have e2 : (st == "failed") = false := by
    simpa using h2
  have e3 : (s < 0) = False := eq_false (not_lt.mpr hs)
  refine ⟨?_, ?_, ?_, ?_, ?_⟩ <;>
    simp [CheckStatus, pySubscr, dictGet, isPyNone, pyEqStr, pySleep,
      pyTruthyOpt, pyTruthy, e1, e2, e3, request, hw, Response.staus_code]

/-- C5 witness: the pending branch at a concrete in-progress
`processing_info` with a 5-second poll interval. -/
theorem C5_witness :
    CheckStatus creds0 (fun _ => mkResp 200 [] none "T") 0 (.str "m") 5 0
      (some (.obj [("state", .str "in_progress"),
        ("check_after_secs", .num 5)])) =
      ([.sleep 5, .dispatch wStatus0],
        .error (.attributeError "staus_code")) :=
  (C5_amended creds0 (fun _ => mkResp 200 [] none "T") 0 (.str "m") 5 0
    "in_progress" 5 wStatus0 (by norm_num) (by decide) (by decide)
    rfl).2.2.2.2

/-- C6: when OAuth1 signing is requested and any of the four OAuth1
credentials is `None`, `HTTPClient.request` raises `PytweetException`
naming a missing credential before any dispatch happens (the effect
trace is empty) — it never proceeds unauthenticated. -/
theorem C6_thm (creds : Credentials) (args : Args) (resp retry : Response)
    (now : Int) (u : String)
    (hu : buildURL args = .ok u) (hauth : args.auth = true)
    (hmiss : creds.consumer_key = none ∨ creds.consumer_key_secret = none ∨
      creds.access_token = none ∨ creds.access_token_secret = none) :
    (firstMissingName creds).isSome = true ∧
    ((firstMissingName creds).getD "", (none : Option String)) ∈
      creds.credList ∧
    request creds args resp retry now =
      ([], .error (.pytweetException ((firstMissingName creds).getD "" ++
        " is a required credential for this action."))) := by
  have hex : ∃ x ∈ creds.credList,
      (fun kv : String × Option String => kv.2.isNone) x := by
    rcases hmiss with h | h | h | h
    · exact ⟨("consumer_key", creds.consumer_key),
        by simp [Credentials.credList], by simp [h]⟩
    · exact ⟨("consumer_key_secret", creds.consumer_key_secret),
        by simp [Credentials.credList], by simp [h]⟩
    · exact ⟨("access_token", creds.access_token),
        by simp [Credentials.credList], by simp [h]⟩
    · exact ⟨("access_token_secret", creds.access_token_secret),
        by simp [Credentials.credList], by simp [h]⟩
  have hsome : (creds.credList.find? (fun kv => kv.2.isNone)).isSome := by
    rw [List.find?_isSome]
    exact hex
  rcases Option.isSome_iff_exists.mp hsome with ⟨⟨k0, v0⟩, hf⟩
  have hv0 : v0 = none := by
    have hp := List.find?_some hf
    simpa using hp
  subst hv0
  refine ⟨?_, ?_, ?_⟩
  · simp [firstMissingName, hf]
  · have hm := List.mem_of_find?_eq_some hf
    simpa [firstMissingName, hf] using hm
  · simp [request, requestPrelude, hu, authCheck, hauth, hf,
      firstMissingName]

/-- C6 witness: a call with `access_token = None` fails before
dispatch, naming a missing credential. -/
theorem C6_witness :
    (firstMissingName creds1).isSome = true ∧
    ((firstMissingName creds1).getD "", (none : Option String)) ∈
      creds1.credList ∧
    request creds1 argsAuth (mkResp 200 [] none "T")
      (mkResp 200 [] none "T") 0 =
      ([], .error (.pytweetException ((firstMissingName creds1).getD "" ++
        " is a required credential for this action."))) :=
  C6_thm creds1 argsAuth _ _ 0 (base_url ++ "2" ++ "/x") rfl rfl
    (Or.inr (Or.inr (Or.inl rfl)))

/-- C9: when both a non-empty form body and a non-empty JSON body are
supplied, the wire request dispatched by `HTTPClient.request` carries
the form body unchanged and no JSON body — exactly one body-encoding
channel, with form data winning. -/
theorem C9_thm (creds : Credentials) (args : Args) (resp retry : Response)
    (now : Int) (w : WireRequest)
    (hdata : pyTruthyDict args.data = true)
    (hjson : pyTruthyDict args.json = true)
    (hw : requestPrelude creds args = .ok w) :
    w.data = args.data ∧ w.json = none ∧
    (request creds args resp retry now).1 = [.dispatch w] := by
  have hreq : (request creds args resp retry now).1 = [.dispatch w] := by
    simp [request, hw, Response.staus_code]
  unfold requestPrelude at hw
  cases hb : buildURL args with
  | error e =>
    rw [hb] at hw
    exact absurd hw (by simp)
  | ok u =>
    rw [hb] at hw
    cases ha : authCheck creds args.auth with
    | error e =>
      rw [ha] at hw
      exact absurd hw (by simp)
    | ok ak =>
      rw [ha] at hw
      simp only [hdata] at hw
      have hwv := hw
      injection hwv with h
      subst h
      refine ⟨?_, ?_, hreq⟩
      · simp [pyTruthyDict, hdata]
      · simp [pyTruthyDict, hdata]

/-- C9 witness: the `argsBoth` call dispatches `wBoth`, whose form body
is the supplied form dict and whose JSON body was dropped. -/
theorem C9_witness :
    wBoth.data = argsBoth.data ∧ wBoth.json = none ∧
    (request creds0 argsBoth (mkResp 200 [] none "T")
      (mkResp 200 [] none "T") 0).1 = [.dispatch wBoth] :=
  C9_thm creds0 argsBoth _ _ 0 wBoth rfl rfl rfl

/-- C10 (amended): `Tweet.author` returns a `User` built from the first
entry of `includes.users` — regardless of the root payload's
`author_id`, with no id lookup — and returns `None` exactly when
`includes` is absent or falsy or `includes.users` is absent or
empty. -/
theorem C10_amended (payload u : JVal) (rest : List JVal)
    (hu : User.mk_init u = .ok ⟨u⟩) :
    Tweet.author (.obj [("data", payload),
      ("includes", .obj [("users", .arr (u :: rest))])]) =
      .ok (some ⟨u⟩) ∧
    Tweet.author (.obj [("data", payload)]) = .ok none ∧
    Tweet.author (.obj [("data", payload),
      ("includes", .obj [("users", .arr [])])]) = .ok none ∧
    Tweet.author (.obj [("data", payload),
      ("includes", .obj [])]) = .ok none := by
  refine ⟨?_, rfl, rfl, rfl⟩
  simp [Tweet.author, dictGet, pyTruthyOpt, pyTruthy, pyIndex0, hu]

/-- C10 witness: with root `author_id` `"7"` and a single included
user, `Tweet.author` yields that first user. -/
theorem C10_witness :
    Tweet.author (.obj [("data", .obj [("author_id", .str "7")]),
      ("includes", .obj [("users", .arr [user1])])]) = .ok (some ⟨user1⟩) :=
  (C10_amended (.obj [("author_id", .str "7")]) user1 [] rfl).1
